import Mathlib

/-!
Shallow embedding of the looper core (MIDI clock/transport state, loop model,
slot-grid sequencer) from `src/rust/src/clock.rs`, `src/rust/src/playback.rs`
and `src/rust/src/midi.rs`, together with theorems settling the specification
claims about it.

Machine integers are modelled as `Nat` with explicit wrap (`% 2 ^ w`) where
the Rust code can overflow or truncate; `f64` timestamps and the BPM value are
modelled over `ℚ` (the claims settled here concern *when* the BPM computation
runs, never float rounding); fallible operations (array indexing that can
panic in Rust) return `Option`, with `none` modelling the panic.
-/

namespace Looper

/-- Constants from `src/rust/src/midi.rs`. -/
def MIDI_CLOCK : Nat := 0xF8

/-- MIDI transport start byte (`midi.rs`). -/
def MIDI_START : Nat := 0xFA

/-- MIDI transport continue byte (`midi.rs`). -/
def MIDI_CONTINUE : Nat := 0xFB

/-- MIDI transport stop byte (`midi.rs`). -/
def MIDI_STOP : Nat := 0xFC

/-- 24 MIDI clocks per beat (`midi.rs`). -/
def CLOCKS_PER_BEAT : Nat := 24

/-- 4 beats per bar (`midi.rs`). -/
def BEATS_PER_BAR : Nat := 4

/-- Wrap modulus of `usize`/`u64` on the 64-bit target. -/
def U64 : Nat := 2 ^ 64

/-- Wrap modulus of `u32`. -/
def U32 : Nat := 2 ^ 32

/-! ## Clock/Transport state (`clock.rs`) -/

/-- Size of the rolling window for BPM calculation (`clock.rs`). -/
def BPM_WINDOW_CLOCKS : Nat := 96

/-- Ring buffer of clock-pulse timestamps (`ClockTimeBuffer` in `clock.rs`).
Timestamps (`Instant` in Rust) are modelled as rational seconds. -/
structure ClockTimeBuffer where
  times : List (Option ℚ)
  index : Nat
  count : Nat
deriving DecidableEq

/-- Fresh buffer (`ClockTimeBuffer::new`). -/
def ClockTimeBuffer.new : ClockTimeBuffer :=
  ⟨List.replicate BPM_WINDOW_CLOCKS none, 0, 0⟩

/-- `ClockTimeBuffer::push`: overwrite the slot at `index`, advance `index`
modulo the window, saturate `count` at the window size; returns the evicted
timestamp and the updated sample count alongside the new buffer.
(`times[index]` is in bounds in every reachable buffer; out of range the Rust
code would panic, modelled here by the `getD` default never being reached.) -/
def ClockTimeBuffer.push (b : ClockTimeBuffer) (time : ℚ) :
    ClockTimeBuffer × Option ℚ × Nat :=
  let oldest := b.times.getD b.index none
  let times := b.times.set b.index (some time)
  let index := (b.index + 1) % BPM_WINDOW_CLOCKS
  let count := if b.count < BPM_WINDOW_CLOCKS then b.count + 1 else b.count
  (⟨times, index, count⟩, oldest, count)

/-- `ClockTimeBuffer::get_oldest`: oldest retained timestamp and sample count. -/
def ClockTimeBuffer.get_oldest (b : ClockTimeBuffer) : Option (ℚ × Nat) :=
  if b.count = 0 then none
  else if b.count < BPM_WINDOW_CLOCKS then
    (b.times.getD 0 none).map (fun t => (t, b.count))
  else
    (b.times.getD b.index none).map (fun t => (t, b.count))

/-- `ClockTimeBuffer::clear`. -/
def ClockTimeBuffer.clear (_b : ClockTimeBuffer) : ClockTimeBuffer :=
  ClockTimeBuffer.new

/-- Shared clock state (`ClockState` in `clock.rs`); the atomics become plain
fields of a state record threaded through the handler. -/
structure ClockState where
  running : Bool
  seen_transport : Bool
  clock_count : Nat
  bpm_x100 : Nat
  clock_times : ClockTimeBuffer
deriving DecidableEq

/-- `ClockState::new`. -/
def ClockState.new : ClockState :=
  ⟨false, false, 0, 0, ClockTimeBuffer.new⟩

/-- `ClockState::get_position`: 1-indexed (bar, beat). -/
def ClockState.get_position (s : ClockState) : Nat × Nat :=
  let beats := s.clock_count / CLOCKS_PER_BEAT
  (beats / BEATS_PER_BAR + 1, beats % BEATS_PER_BAR + 1)

/-- BPM update performed on a clock pulse (`clock.rs` lines 169-183): push
`now` into the ring buffer and, when at least two samples are retained and a
positive time has elapsed since the oldest one, store
`floor(((samples-1)/24) / (elapsed/60) * 100)` as the new `bpm_x100`.
Returns the new buffer and the new `bpm_x100`. -/
def bpmOnClock (buffer : ClockTimeBuffer) (bpm_x100 : Nat) (now : ℚ) :
    ClockTimeBuffer × Nat :=
  let buffer := (buffer.push now).1
  match buffer.get_oldest with
  | none => (buffer, bpm_x100)
  | some (oldest_time, sample_count) =>
    if sample_count > 1 then
      let elapsed := now - oldest_time
      if elapsed > 0 then
        let clocks : ℚ := (sample_count : ℚ) - 1
        let beats := clocks / (CLOCKS_PER_BEAT : ℚ)
        let minutes := elapsed / 60
        let bpm := beats / minutes
        (buffer, (bpm * 100).floor.toNat)
      else (buffer, bpm_x100)
    else (buffer, bpm_x100)

/-- The `MIDI_CLOCK` arm of `ClockState::handle_midi_message_at` (`clock.rs`
lines 162-189): auto-start when no explicit transport has been seen, always
push the timestamp and recompute BPM, and increment `clock_count` (wrapping
`u64`) only while running. -/
def clockStep (s : ClockState) (now : ℚ) : ClockState :=
  -- auto-start on clock only if we haven't seen explicit transport yet
  let s :=
    if s.seen_transport = false then { s with running := true } else s
  -- always calculate BPM from clock pulses (even when stopped)
  let upd := bpmOnClock s.clock_times s.bpm_x100 now
  let s := { s with clock_times := upd.1, bpm_x100 := upd.2 }
  -- only count position when running
  if s.running then
    { s with clock_count := (s.clock_count + 1) % U64 }
  else s

/-- `ClockState::handle_midi_message_at` (`clock.rs` lines 141-192). -/
def ClockState.handle_midi_message_at (s : ClockState) (message : List Nat)
    (now : ℚ) : ClockState :=
  match message with
  | [] => s
  | b :: _ =>
    if b = MIDI_START then
      { s with seen_transport := true, running := true, clock_count := 0,
               bpm_x100 := 0, clock_times := s.clock_times.clear }
    else if b = MIDI_CONTINUE then
      { s with seen_transport := true, running := true }
    else if b = MIDI_STOP then
      { s with seen_transport := true, running := false }
    else if b = MIDI_CLOCK then
      clockStep s now
    else s

/-- Handle a sequence of messages, oldest first, with their timestamps. -/
def ClockState.handleAll (s : ClockState) (msgs : List (List Nat × ℚ)) :
    ClockState :=
  msgs.foldl (fun st m => st.handle_midi_message_at m.1 m.2) s

/-! ## Loop model (`playback.rs`) -/

/-- A single MIDI event (`LoopEvent` in `playback.rs`); byte values are `Nat`
in `0 .. 256`. -/
structure LoopEvent where
  clock_position : Nat
  channel : Nat
  message : List Nat
deriving DecidableEq

/-- A loaded MIDI loop (`Loop` in `playback.rs`). -/
structure Loop where
  name : String
  length_clocks : Nat
  events : List LoopEvent
deriving DecidableEq

/-- Channel-voice message payloads as decoded by `midly` for `Loop::from_file`. -/
inductive MidiMessage where
  | noteOn (key vel : Nat)
  | noteOff (key vel : Nat)
  | aftertouch (key vel : Nat)
  | controller (controller value : Nat)
  | programChange (program : Nat)
  | channelAftertouch (vel : Nat)
  | pitchBend (bend : Nat)
deriving DecidableEq

/-- Track event kinds relevant to `Loop::from_file`: a channel-voice message
on a channel, or anything else (meta/sysex), which the parse loop skips. -/
inductive TrackEventKind where
  | midi (channel : Nat) (message : MidiMessage)
  | other
deriving DecidableEq

/-- One track event: a delta time and a kind (`midly::TrackEvent`). -/
structure TrackEvent where
  delta : Nat
  kind : TrackEventKind
deriving DecidableEq

/-- Raw MIDI byte encoding built in `Loop::from_file` (`playback.rs` 72-99). -/
def msgBytes (channel : Nat) : MidiMessage → List Nat
  | .noteOn key vel => [0x90 ||| channel, key, vel]
  | .noteOff key vel => [0x80 ||| channel, key, vel]
  | .aftertouch key vel => [0xA0 ||| channel, key, vel]
  | .controller controller value => [0xB0 ||| channel, controller, value]
  | .programChange program => [0xC0 ||| channel, program]
  | .channelAftertouch vel => [0xD0 ||| channel, vel]
  | .pitchBend bend => [0xE0 ||| channel, bend &&& 0x7F, (bend >>> 7) &&& 0x7F]

/-- Per-track event extraction loop of `Loop::from_file` (`playback.rs`
61-108): accumulate delta times into an absolute `tick` and emit a
`LoopEvent` at `tick * 24 / file_ppq` for every channel-voice event. -/
def trackLoopEvents (file_ppq : Nat) (tick : Nat) :
    List TrackEvent → List LoopEvent
  | [] => []
  | e :: rest =>
    let tick := tick + e.delta
    match e.kind with
    | .midi channel message =>
        { clock_position := tick * CLOCKS_PER_BEAT / file_ppq,
          channel := channel,
          message := msgBytes channel message } :: trackLoopEvents file_ppq tick rest
    | .other => trackLoopEvents file_ppq tick rest

/-- Total delta time of a run of track events: the absolute tick accumulated
by the parse loop after consuming them. -/
def sumDeltas (l : List TrackEvent) : Nat :=
  (l.map (fun e => e.delta)).sum

/-- Core of `Loop::from_file` after the `midly` parse succeeded with metrical
timing `file_ppq`: walk every track, merge, sort by `clock_position`
(`sort_by_key`, modelled by the stable `List.mergeSort`), and set
`length_clocks = bars * 4 * 24`. -/
def Loop.fromTracks (name : String) (file_ppq : Nat)
    (tracks : List (List TrackEvent)) (loop_length_bars : Nat) : Loop :=
  let events := (tracks.map (trackLoopEvents file_ppq 0)).flatten
  let events := events.mergeSort (fun a b => a.clock_position ≤ b.clock_position)
  { name := name,
    length_clocks := loop_length_bars * 4 * CLOCKS_PER_BEAT,
    events := events }

/-- `Loop::set_channel` (`playback.rs` 124-133): for every event with a
nonempty message, overwrite the status byte's low nibble and the channel
field. -/
def Loop.set_channel (l : Loop) (channel : Nat) : Loop :=
  { l with
    events := l.events.map fun event =>
      if event.message = [] then event
      else
        let status := event.message.headD 0 &&& 0xF0
        { event with
          message := (status ||| (channel &&& 0x0F)) :: event.message.tail,
          channel := channel } }

/-! ## Slot grid (`playback.rs`) -/

/-- A slot identifier (`SlotId` in `playback.rs`): a public `char` field. -/
structure SlotId where
  char : Char
deriving DecidableEq

/-- `SlotId::index`: `(self.0 as usize) - ('A' as usize)`, i.e. wrapping
`usize` subtraction (release-mode semantics of the Rust `-`). -/
def SlotId.index (id : SlotId) : Nat :=
  (id.char.toNat + U64 - 65) % U64

/-- `SlotId::from_index`. -/
def SlotId.from_index (idx : Nat) : Option SlotId :=
  if idx < 26 then some ⟨Char.ofNat (65 + idx)⟩ else none

/-- A single slot in the sequence grid (`SequenceSlot`). -/
structure SequenceSlot where
  id : SlotId
  loop_data : Option Loop
  repeat_count : Nat
  next_slot : Option SlotId
deriving DecidableEq

/-- `SequenceSlot::empty`. -/
def SequenceSlot.empty (id : SlotId) : SequenceSlot :=
  ⟨id, none, 1, none⟩

/-- Grid of 26 slots plus a start slot (`SequenceGrid`); the Rust
`[SequenceSlot; 26]` array is modelled as a list of length 26. -/
structure SequenceGrid where
  slots : List SequenceSlot
  start_slot : SlotId
deriving DecidableEq

/-- `SequenceGrid::new`. -/
def SequenceGrid.new : SequenceGrid :=
  ⟨(List.range 26).map (fun i => SequenceSlot.empty ⟨Char.ofNat (65 + i)⟩),
   ⟨'A'⟩⟩

/-- `SequenceGrid::get`: `&self.slots[id.index()]`; `none` models the Rust
panic on an out-of-range index. -/
def SequenceGrid.get? (g : SequenceGrid) (id : SlotId) : Option SequenceSlot :=
  g.slots.get? id.index

/-! ## Sequence player (`playback.rs`) -/

/-- An entry in a legacy sequence (`SequenceEntry`). -/
structure SequenceEntry where
  loop_data : Loop
  repeat_count : Nat
deriving DecidableEq

/-- A legacy linear sequence (`Sequence`). -/
structure Sequence where
  entries : List SequenceEntry
deriving DecidableEq

/-- Player state (`SequencePlayer` in `playback.rs`), covering both the
legacy sequence mode and the grid mode. -/
structure SequencePlayer where
  sequence : Option Sequence
  current_entry_idx : Nat
  grid : Option SequenceGrid
  current_slot : Option SlotId
  current_iteration : Nat
  next_event_idx : Nat
  loop_start_clock : Nat
  playing : Bool
deriving DecidableEq

namespace SequencePlayer

/-- `SequencePlayer::new`. -/
def new : SequencePlayer :=
  ⟨none, 0, none, none, 0, 0, 0, false⟩

/-- `SequencePlayer::load`. -/
def load (p : SequencePlayer) (sequence : Sequence) : SequencePlayer :=
  { p with sequence := some sequence, current_entry_idx := 0,
           current_iteration := 0, next_event_idx := 0, loop_start_clock := 0 }

/-- `SequencePlayer::start`. -/
def start (p : SequencePlayer) : SequencePlayer :=
  { p with current_entry_idx := 0, current_iteration := 0,
           next_event_idx := 0, loop_start_clock := 0, playing := true }

/-- `SequencePlayer::stop`. -/
def stop (p : SequencePlayer) : SequencePlayer :=
  { p with playing := false }

/-- `SequencePlayer::reset` (`playback.rs` 367-372): the operation invoked on
transport START; note that it does not touch `current_slot`. -/
def reset (p : SequencePlayer) : SequencePlayer :=
  { p with current_entry_idx := 0, current_iteration := 0,
           next_event_idx := 0, loop_start_clock := 0 }

/-- `SequencePlayer::load_grid`. -/
def load_grid (p : SequencePlayer) (grid : SequenceGrid) : SequencePlayer :=
  { p with grid := some grid, current_slot := some grid.start_slot,
           current_iteration := 0, next_event_idx := 0, loop_start_clock := 0,
           sequence := none }

/-- `SequencePlayer::reset_grid` (`playback.rs` 419-426). -/
def reset_grid (p : SequencePlayer) : SequencePlayer :=
  let p :=
    match p.grid with
    | some grid => { p with current_slot := some grid.start_slot }
    | none => p
  { p with current_iteration := 0, next_event_idx := 0, loop_start_clock := 0 }

/-- `SequencePlayer::update_grid` (`playback.rs` 402-416): install the new
grid; if there was an active slot whose slot in the new grid holds no loop,
reset to the start slot. `none` models the panic of `grid.get` on an invalid
slot index. -/
def update_grid (p : SequencePlayer) (grid : SequenceGrid) :
    Option SequencePlayer :=
  let p1 := { p with grid := some grid }
  match p.current_slot with
  | none => some p1
  | some slot_id =>
    match grid.get? slot_id with
    | none => none
    | some slot =>
      if slot.loop_data.isNone then some p1.reset_grid else some p1

/-- `SequencePlayer::advance_to_next_slot` (`playback.rs` 556-567). -/
def advance_to_next_slot (p : SequencePlayer) (clock_count : Nat) :
    Option SequencePlayer :=
  let step :=
    match p.grid, p.current_slot with
    | some g, some current =>
      match g.get? current with
      | none => none
      | some slot => some { p with current_slot := slot.next_slot }
    | _, _ => some p
  step.map fun p1 =>
    { p1 with current_iteration := 0, next_event_idx := 0,
              loop_start_clock := clock_count }

/-- `SequencePlayer::collect_grid_events_at_position` (`playback.rs`
569-596): fire, and advance the cursor past, every event from
`next_event_idx` on whose `clock_position ≤ position`, stopping at the first
event beyond it. -/
def collect_grid_events_at_position (p : SequencePlayer) (position : Nat) :
    Option (SequencePlayer × List (List Nat)) :=
  match p.grid with
  | none => some (p, [])
  | some g =>
    match p.current_slot with
    | none => some (p, [])
    | some slot_id =>
      match g.get? slot_id with
      | none => none
      | some slot =>
        match slot.loop_data with
        | none => some (p, [])
        | some l =>
          let fired := (l.events.drop p.next_event_idx).takeWhile
            (fun e => e.clock_position ≤ position)
          some ({ p with next_event_idx := p.next_event_idx + fired.length },
                fired.map (fun e => e.message))

/-- `SequencePlayer::tick_grid` (`playback.rs` 510-554). -/
def tick_grid (p : SequencePlayer) (clock_count : Nat) :
    Option (SequencePlayer × List (List Nat)) :=
  match p.grid with
  | none => some (p, [])
  | some g =>
    match p.current_slot with
    | none => some (p, [])
    | some slot_id =>
      match g.get? slot_id with
      | none => none
      | some slot =>
        match slot.loop_data with
        | none => some (p, [])
        | some loop_data =>
          let repeat_count := slot.repeat_count
          let length_clocks := loop_data.length_clocks
          if loop_data.events = [] ∨ length_clocks = 0 then some (p, [])
          else
            let elapsed := clock_count - p.loop_start_clock
            let position_in_loop := elapsed % length_clocks
            let iteration := elapsed / length_clocks
            if repeat_count ≤ iteration then
              match p.advance_to_next_slot clock_count with
              | none => none
              | some p1 => p1.collect_grid_events_at_position 0
            else
              let p1 :=
                if p.current_iteration < iteration % U32 then
                  { p with current_iteration := iteration % U32,
                           next_event_idx := 0 }
                else p
              p1.collect_grid_events_at_position position_in_loop

/-- `SequencePlayer::advance_to_next_entry` (`playback.rs` 599-605); `none`
models the `unwrap` panic and the `% 0` panic, both unreachable from `tick`. -/
def advance_to_next_entry (p : SequencePlayer) (clock_count : Nat) :
    Option SequencePlayer :=
  match p.sequence with
  | none => none
  | some s =>
    let num_entries := s.entries.length
    if num_entries = 0 then none
    else some { p with
      current_entry_idx := (p.current_entry_idx + 1) % num_entries,
      current_iteration := 0, next_event_idx := 0,
      loop_start_clock := clock_count }

/-- `SequencePlayer::collect_events_at_position` (`playback.rs` 607-623). -/
def collect_events_at_position (p : SequencePlayer) (position : Nat) :
    Option (SequencePlayer × List (List Nat)) :=
  match p.sequence with
  | none => none
  | some s =>
    match s.entries.get? p.current_entry_idx with
    | none => none
    | some entry =>
      let fired := (entry.loop_data.events.drop p.next_event_idx).takeWhile
        (fun e => e.clock_position ≤ position)
      some ({ p with next_event_idx := p.next_event_idx + fired.length },
            fired.map (fun e => e.message))

/-- `SequencePlayer::tick` (`playback.rs` 459-507): grid mode when a grid is
loaded, otherwise the legacy linear-sequence mode. -/
def tick (p : SequencePlayer) (clock_count : Nat) :
    Option (SequencePlayer × List (List Nat)) :=
  if p.playing = false then some (p, [])
  else if p.grid.isSome then p.tick_grid clock_count
  else
    match p.sequence with
    | none => some (p, [])
    | some s =>
      if s.entries = [] then some (p, [])
      else
        match s.entries.get? p.current_entry_idx with
        | none => none
        | some entry =>
          let repeat_count := entry.repeat_count
          let length_clocks := entry.loop_data.length_clocks
          if entry.loop_data.events = [] ∨ length_clocks = 0 then some (p, [])
          else
            let elapsed := clock_count - p.loop_start_clock
            let position_in_loop := elapsed % length_clocks
            let iteration := elapsed / length_clocks
            if repeat_count ≤ iteration then
              match p.advance_to_next_entry clock_count with
              | none => none
              | some p1 => p1.collect_events_at_position 0
            else
              let p1 :=
                if p.current_iteration < iteration % U32 then
                  { p with current_iteration := iteration % U32,
                           next_event_idx := 0 }
                else p
              p1.collect_events_at_position position_in_loop

/-- Iterate `tick` over a list of clock counts, collecting every batch;
`none` as soon as one tick would panic. -/
def ticksOut (p : SequencePlayer) :
    List Nat → Option (SequencePlayer × List (List (List Nat)))
  | [] => some (p, [])
  | c :: cs =>
    match p.tick c with
    | none => none
    | some (p1, out) =>
      match p1.ticksOut cs with
      | none => none
      | some (p2, outs) => some (p2, out :: outs)

end SequencePlayer

/-! ## Concrete fixtures used by witnesses and counterexamples -/

/-- A 1-bar (96-clock) test loop with a note-on at clock 0 and a note-off at
clock 48, mirroring the loops built in the `playback.rs` tests. -/
def testLoop : Loop :=
  { name := "test", length_clocks := 96,
    events := [⟨0, 0, [0x90, 60, 100]⟩, ⟨48, 0, [0x80, 60, 0]⟩] }

/-- A second test loop, playing a different note. -/
def testLoopB : Loop :=
  { name := "b", length_clocks := 96,
    events := [⟨0, 0, [0x90, 64, 100]⟩, ⟨48, 0, [0x80, 64, 0]⟩] }

/-- Grid whose start slot A holds `testLoop` with `repeat_count = 1` and no
next slot: the graph stops after one lap of A. -/
def gridStop : SequenceGrid :=
  { slots := (List.range 26).map (fun i =>
      if i = 0 then
        { id := ⟨'A'⟩, loop_data := some testLoop, repeat_count := 1,
          next_slot := none }
      else SequenceSlot.empty ⟨Char.ofNat (65 + i)⟩),
    start_slot := ⟨'A'⟩ }

/-- Grid whose slot A holds a loop with NO events (`length_clocks = 96`),
`repeat_count = 1` and `next_slot = B`. -/
def gridEmptyLoop : SequenceGrid :=
  { slots := (List.range 26).map (fun i =>
      if i = 0 then
        { id := ⟨'A'⟩,
          loop_data := some { name := "empty", length_clocks := 96, events := [] },
          repeat_count := 1, next_slot := some ⟨'B'⟩ }
      else SequenceSlot.empty ⟨Char.ofNat (65 + i)⟩),
    start_slot := ⟨'A'⟩ }

/-- Grid whose slot A holds a loop with NO events (`length_clocks = 96`),
`repeat_count = 1` and `next_slot = None`: the event-less variant of the
stop grid. -/
def gridEmptyStop : SequenceGrid :=
  { slots := (List.range 26).map (fun i =>
      if i = 0 then
        { id := ⟨'A'⟩,
          loop_data := some { name := "empty", length_clocks := 96, events := [] },
          repeat_count := 1, next_slot := none }
      else SequenceSlot.empty ⟨Char.ofNat (65 + i)⟩),
    start_slot := ⟨'A'⟩ }

/-- Grid with A (testLoop, repeat 1, next B) and B (testLoopB, repeat 1). -/
def gridAB : SequenceGrid :=
  { slots := (List.range 26).map (fun i =>
      if i = 0 then
        { id := ⟨'A'⟩, loop_data := some testLoop, repeat_count := 1,
          next_slot := some ⟨'B'⟩ }
      else if i = 1 then
        { id := ⟨'B'⟩, loop_data := some testLoopB, repeat_count := 1,
          next_slot := none }
      else SequenceSlot.empty ⟨Char.ofNat (65 + i)⟩),
    start_slot := ⟨'A'⟩ }

/-- The batch of events due at position 0 of the slot a grid advance enters:
empty when the new slot is `None` or holds no loop, otherwise the messages of
the new loop's events at `clock_position = 0`. -/
def eventsAtZero (grid : SequenceGrid) : Option SlotId → List (List Nat)
  | none => []
  | some id2 =>
    match grid.get? id2 with
    | none => []
    | some slot2 =>
      match slot2.loop_data with
      | none => []
      | some l2 => (l2.events.filter fun e => e.clock_position = 0).map
          (fun e => e.message)

/-- Clock pulses applied in order to a clock state: fold of the handler over
a list of pulse timestamps. -/
def clockPulses (s : ClockState) (ts : List ℚ) : ClockState :=
  ts.foldl (fun st t => st.handle_midi_message_at [MIDI_CLOCK] t) s

/-! ## Claim C9: SlotId index bounds -/

/-- C9: for a `SlotId` whose character is an uppercase letter A-Z, `index()`
is below 26 and the `slots[index]` accesses of `SequenceGrid::get`/`get_mut`
are in bounds; and the precondition is necessary, since any other character
yields an index outside `0..=25` (the `char` field is public). -/
theorem slotId_index_bounds (id : SlotId)
    (h : 65 ≤ id.char.toNat ∧ id.char.toNat ≤ 90) :
    id.index < 26 ∧
    (∀ g : SequenceGrid, g.slots.length = 26 → (g.get? id).isSome) ∧
    (∀ id2 : SlotId, ¬ (65 ≤ id2.char.toNat ∧ id2.char.toNat ≤ 90) →
      ¬ id2.index < 26) := by
  have hU : U64 = 18446744073709551616 := by norm_num [U64]
  have hidx : id.index < 26 := by
    unfold SlotId.index
    rw [hU]
    omega
  refine ⟨hidx, ?_, ?_⟩
  · intro g hg
    rw [SequenceGrid.get?, List.get?_eq_getElem?,
      List.getElem?_eq_getElem (by omega : id.index < g.slots.length)]
    rfl
  · intro id2 h2
    have hc : id2.char.toNat < 4294967296 :=
      UInt32.toNat_lt_size id2.char.val
    unfold SlotId.index
    rw [hU]
    omega

/-- Witness for C9 at the concrete slot id C. -/
theorem slotId_index_bounds_witness :
    (65 ≤ (SlotId.mk 'C').char.toNat ∧ (SlotId.mk 'C').char.toNat ≤ 90) ∧
    (SlotId.mk 'C').index < 26 :=
  ⟨by decide, (slotId_index_bounds ⟨'C'⟩ (by decide)).1⟩

/-! ## Claim C10: update_grid on a stopped player -/

/-- C10: when `current_slot` is `None` (the graph previously reached a stop),
`update_grid` only replaces the `grid` field: `current_slot` stays `None` and
`playing`, `current_iteration`, `next_event_idx` and `loop_start_clock` are
all unchanged — a stopped player never resumes from a grid update alone. -/
theorem update_grid_stopped (p : SequencePlayer) (g : SequenceGrid)
    (h : p.current_slot = none) :
    p.update_grid g = some { p with grid := some g } ∧
    ∃ p', p.update_grid g = some p' ∧
      p'.current_slot = none ∧
      p'.playing = p.playing ∧
      p'.current_iteration = p.current_iteration ∧
      p'.next_event_idx = p.next_event_idx ∧
      p'.loop_start_clock = p.loop_start_clock ∧
      p'.grid = some g ∧
      p'.sequence = p.sequence ∧
      p'.current_entry_idx = p.current_entry_idx := by
  have hu : p.update_grid g = some { p with grid := some g } := by
    unfold SequencePlayer.update_grid
    rw [h]
  exact ⟨hu, { p with grid := some g }, hu, h, rfl, rfl, rfl, rfl, rfl, rfl, rfl⟩

/-- Witness for C10 at a concrete stopped player. -/
theorem update_grid_stopped_witness :
    SequencePlayer.new.current_slot = none ∧
    SequencePlayer.new.update_grid gridStop =
      some { SequencePlayer.new with grid := some gridStop } :=
  ⟨rfl, (update_grid_stopped SequencePlayer.new gridStop rfl).1⟩

/-! ## Claim C7: update_grid recovery policy -/

/-- C7: `update_grid` replaces the grid preserving the whole playback
position whenever the active slot still holds a loop in the new grid; if the
active slot's loop is absent in the new grid the player is reset so that
`current_slot` becomes the new grid's start slot with iteration and cursor 0;
in both cases the operation returns a defined state (no error, no panic). -/
theorem update_grid_policy (p : SequencePlayer) (grid : SequenceGrid)
    (id : SlotId) (slot : SequenceSlot)
    (hc : p.current_slot = some id) (hget : grid.get? id = some slot) :
    (∀ l, slot.loop_data = some l →
      p.update_grid grid = some { p with grid := some grid }) ∧
    (slot.loop_data = none →
      p.update_grid grid = some
        { p with grid := some grid, current_slot := some grid.start_slot,
                 current_iteration := 0, next_event_idx := 0,
                 loop_start_clock := 0 }) ∧
    (p.update_grid grid).isSome := by
  refine ⟨?_, ?_, ?_⟩
  · intro l hl
    simp only [SequencePlayer.update_grid, hc, hget, hl, Option.isNone_some,
      Bool.false_eq_true, if_false]
  · intro hl
    simp only [SequencePlayer.update_grid, hc, hget, hl, Option.isNone_none,
      if_true, SequencePlayer.reset_grid]
  · simp only [SequencePlayer.update_grid, hc, hget]
    cases slot.loop_data <;> simp [SequencePlayer.reset_grid]

/-- Witness for C7: preservation when the active slot keeps its loop, and
reset when the active slot's loop was cleared. -/
theorem update_grid_policy_witness :
    ((SequencePlayer.new.load_grid gridStop).update_grid gridStop =
      some { SequencePlayer.new.load_grid gridStop with grid := some gridStop }) ∧
    ((SequencePlayer.new.load_grid gridStop).update_grid SequenceGrid.new =
      some { SequencePlayer.new.load_grid gridStop with
             grid := some SequenceGrid.new,
             current_slot := some SequenceGrid.new.start_slot,
             current_iteration := 0, next_event_idx := 0,
             loop_start_clock := 0 }) := by
  constructor
  · exact (update_grid_policy (SequencePlayer.new.load_grid gridStop) gridStop
      ⟨'A'⟩ ⟨⟨'A'⟩, some testLoop, 1, none⟩ rfl (by decide)).1 testLoop rfl
  · exact (update_grid_policy (SequencePlayer.new.load_grid gridStop)
      SequenceGrid.new ⟨'A'⟩ (SequenceSlot.empty ⟨'A'⟩) rfl (by decide)).2.1 rfl

/-! ## Claim C8: set_channel frame effect -/

/-- Setting the low nibble leaves the high nibble of a status byte intact. -/
theorem nibble_high_preserved (a c : Nat) :
    ((a &&& 0xF0) ||| (c &&& 0x0F)) &&& 0xF0 = a &&& 0xF0 := by
  rw [Nat.and_distrib_right, Nat.and_assoc, Nat.and_assoc]
  have h15 : (15 : Nat) &&& 240 = 0 := rfl
  have h240 : (240 : Nat) &&& 240 = 240 := rfl
  rw [h15, h240, Nat.and_zero, Nat.or_zero]

/-- C8 counterexample: `set_channel` skips events whose message is empty, so
the claim "rewrites every event's channel field" fails on a loop holding an
event with an empty message: the channel field stays 3, not 5. -/
theorem set_channel_counterexample :
    ((Loop.set_channel ⟨"x", 96, [⟨0, 3, []⟩]⟩ 5).events.map
        (fun e => e.channel)) = [3] ∧ (3 : Nat) ≠ 5 := by
  constructor
  · rfl
  · decide

/-- C8 amended: for every event whose message is nonempty, `set_channel c`
sets the channel field to `c` and the status byte to
`(old &&& 0xF0) ||| (c &&& 0x0F)`; events with an empty message are left
untouched; and in all cases each event's message type (status high nibble),
data bytes, and `clock_position`, as well as the loop's name, length and
event count, are unchanged. -/
theorem set_channel_frame (l : Loop) (c : Nat) (hc : c < 256) :
    (l.set_channel c).name = l.name ∧
    (l.set_channel c).length_clocks = l.length_clocks ∧
    (l.set_channel c).events.length = l.events.length ∧
    ∀ i e e', l.events.get? i = some e →
      (l.set_channel c).events.get? i = some e' →
      e'.clock_position = e.clock_position ∧
      e'.message.tail = e.message.tail ∧
      e'.message.headD 0 &&& 0xF0 = e.message.headD 0 &&& 0xF0 ∧
      (e.message = [] → e' = e) ∧
      (e.message ≠ [] →
        e'.channel = c ∧
        e'.message = ((e.message.headD 0 &&& 0xF0) ||| (c &&& 0x0F))
          :: e.message.tail) := by
  refine ⟨rfl, rfl, by simp [Loop.set_channel], ?_⟩
  intro i e e' he he'
  have he'' : (l.set_channel c).events.get? i =
      some (if e.message = [] then e
        else { e with
          message := ((e.message.headD 0 &&& 0xF0) ||| (c &&& 0x0F))
            :: e.message.tail,
          channel := c }) := by
    simp only [Loop.set_channel, List.get?_eq_getElem?, List.getElem?_map]
    rw [← List.get?_eq_getElem?, he]
    rfl
  rw [he''] at he'
  injection he' with he'
  subst he'
  by_cases hm : e.message = []
  · rw [if_pos hm]
    exact ⟨rfl, rfl, rfl, fun _ => rfl, fun hne => absurd hm hne⟩
  · rw [if_neg hm]
    exact ⟨rfl, rfl, nibble_high_preserved (e.message.headD 0) c,
      fun h => absurd h hm, fun _ => ⟨rfl, rfl⟩⟩

/-- Witness for C8 amended at `testLoop` and channel 5. -/
theorem set_channel_frame_witness :
    (5 : Nat) < 256 ∧
    (testLoop.set_channel 5).events.length = testLoop.events.length :=
  ⟨by decide, (set_channel_frame testLoop 5 (by decide)).2.2.1⟩

/-! ## Claim C1: reset invoked on transport START -/

/-- C1: the operation invoked on MIDI START is `SequencePlayer::reset`
(`main.rs` 901-905), which does NOT restore `current_slot`. Concretely: load
`gridStop` (start slot A, repeat 1, no next slot), start, tick at clock 96 so
the graph reaches its stop (`current_slot = None`); `reset()` then leaves
`current_slot = None` instead of the grid's start slot A, while `reset_grid`
(not invoked on START) would restore it. -/
theorem reset_on_start_misses_current_slot :
    ((((SequencePlayer.new.load_grid gridStop).start).tick 96).map
        (fun r => r.1.reset.current_slot) = some none) ∧
    some gridStop.start_slot ≠ (none : Option SlotId) ∧
    ((((SequencePlayer.new.load_grid gridStop).start).tick 96).map
        (fun r => r.1.reset_grid.current_slot) =
      some (some gridStop.start_slot)) := by
  refine ⟨by decide, by decide, by decide⟩

/-! ## Shared lemmas on the grid tick -/

/-- On a list sorted by `clock_position`, the cursor scan for position 0
(collect while `clock_position ≤ 0`) fires exactly the events at position 0. -/
theorem takeWhile_zero_eq_filter (l : List LoopEvent)
    (hs : l.Pairwise (fun a b => a.clock_position ≤ b.clock_position)) :
    (l.takeWhile fun e => e.clock_position ≤ 0) =
      (l.filter fun e => e.clock_position = 0) := by
  induction l with
  | nil => rfl
  | cons a tl ih =>
    rcases List.pairwise_cons.mp hs with ⟨ha, htl⟩
    rw [List.takeWhile_cons, List.filter_cons]
    by_cases h : a.clock_position = 0
    · have h1 : (decide (a.clock_position ≤ 0)) = true := by simp [h]
      have h2 : (decide (a.clock_position = 0)) = true := by simp [h]
      rw [h1, h2]
      simp only [if_true]
      rw [ih htl]
    · have hfil : tl.filter (fun e => decide (e.clock_position = 0)) = [] := by
        rw [List.filter_eq_nil_iff]
        intro b hb
        have hab := ha b hb
        simp only [decide_eq_true_eq]
        omega
      have h0 : ¬ a.clock_position ≤ 0 := by omega
      simp [h, h0, hfil]

/-- An advancing grid tick (`lap ≥ repeat_count`) rewrites the player to the
next slot with iteration 0, cursor 0 and lap origin at the current clock,
then collects that slot's events at position 0. -/
theorem tick_advance_shape (p : SequencePlayer) (grid : SequenceGrid)
    (id : SlotId) (slot : SequenceSlot) (l : Loop) (clock : Nat)
    (hp : p.playing = true) (hg : p.grid = some grid)
    (hc : p.current_slot = some id) (hget : grid.get? id = some slot)
    (hl : slot.loop_data = some l) (hne : l.events ≠ [])
    (hlen : l.length_clocks ≠ 0)
    (hadv : slot.repeat_count ≤ (clock - p.loop_start_clock) / l.length_clocks) :
    p.tick clock =
      SequencePlayer.collect_grid_events_at_position
        { p with current_slot := slot.next_slot, current_iteration := 0,
                 next_event_idx := 0, loop_start_clock := clock } 0 := by
  have hgs : p.grid.isSome = true := by rw [hg]; rfl
  rw [SequencePlayer.tick, if_neg (by simp [hp]), if_pos hgs]
  rw [SequencePlayer.tick_grid]
  simp only [hg, hc, hget, hl]
  rw [if_neg (by simp [hne, hlen]), if_pos hadv]
  rw [SequencePlayer.advance_to_next_slot]
  simp only [hg, hc, hget]
  rfl

/-- Replacing `next_event_idx` by its own value is the identity. -/
theorem player_set_idx_self (p : SequencePlayer) (h : p.next_event_idx = 0) :
    ({ p with next_event_idx := 0 } : SequencePlayer) = p := by
  cases p
  simp_all

/-- With the cursor at 0 and sorted loops, the collect step at position 0
returns exactly the events at position 0 of the current slot and leaves the
cursor past them. -/
theorem collect_at_zero_eq (p1 : SequencePlayer) (grid : SequenceGrid)
    (hg : p1.grid = some grid) (h0 : p1.next_event_idx = 0)
    (hres : ∀ id2, p1.current_slot = some id2 →
      ∃ slot2, grid.get? id2 = some slot2 ∧
        ∀ l2, slot2.loop_data = some l2 →
          l2.events.Pairwise (fun a b => a.clock_position ≤ b.clock_position)) :
    p1.collect_grid_events_at_position 0 =
      some ({ p1 with
              next_event_idx := (eventsAtZero grid p1.current_slot).length },
            eventsAtZero grid p1.current_slot) := by
  obtain ⟨seq, cei, gr, cs0, ci, nei, lsc, pl⟩ := p1
  obtain rfl : gr = some grid := hg
  obtain rfl : nei = (0 : Nat) := h0
  rw [SequencePlayer.collect_grid_events_at_position]
  cases hcs : cs0 with
  | none =>
    simp only [eventsAtZero, List.length_nil]
  | some id2 =>
    obtain ⟨slot2, hget2, hsort⟩ := hres id2 hcs
    simp only [hget2]
    cases hld : slot2.loop_data with
    | none =>
      simp only [eventsAtZero, hget2, hld, List.length_nil]
    | some l2 =>
      have hfil := takeWhile_zero_eq_filter l2.events (hsort l2 hld)
      simp only [List.drop_zero, hfil, eventsAtZero, hget2, hld,
        List.length_map, Nat.zero_add]

/-- A grid-mode player whose `current_slot` is `None` is left untouched by a
tick and emits nothing. -/
theorem tick_slot_none (q : SequencePlayer) (c : Nat)
    (hq : q.current_slot = none) (hg : q.grid.isSome = true) :
    q.tick c = some (q, []) := by
  obtain ⟨g, hg'⟩ := Option.isSome_iff_exists.mp hg
  rw [SequencePlayer.tick]
  by_cases hp : q.playing = false
  · rw [if_pos hp]
  · rw [if_neg hp, if_pos hg, SequencePlayer.tick_grid]
    simp only [hg', hq]

/-- Iterating ticks over a grid-mode player with `current_slot = None`
leaves the player unchanged and produces only empty batches. -/
theorem ticksOut_slot_none (q : SequencePlayer)
    (hq : q.current_slot = none) (hg : q.grid.isSome = true)
    (cs : List Nat) :
    q.ticksOut cs = some (q, cs.map fun _ => []) := by
  induction cs with
  | nil => rfl
  | cons c cs ih =>
    rw [SequencePlayer.ticksOut, tick_slot_none q c hq hg]
    dsimp only
    rw [ih]
    rfl

/-! ## Claim C3: repeat exhaustion with no next slot silences the player -/

/-- C3 counterexample: on a slot whose assigned loop has no events and whose
`next_slot` is `None`, `tick_grid` returns early without advancing, although
the lap `(pulse − lap_origin) / length = 1` has reached `repeat_count = 1`:
after `tick 96` — and after any further tick — `current_slot` is still
`Some A`, never `None`, so the claimed advancing tick does not happen. -/
theorem tick_stop_counterexample :
    ((gridEmptyStop.get? ⟨'A'⟩).map (fun s => s.next_slot) = some none) ∧
    ((gridEmptyStop.get? ⟨'A'⟩).map (fun s => s.repeat_count) = some 1) ∧
    ((gridEmptyStop.get? ⟨'A'⟩).map (fun s => s.loop_data.map
        (fun l => l.length_clocks)) = some (some 96)) ∧
    ((96 - ((SequencePlayer.new.load_grid gridEmptyStop).start).loop_start_clock)
        / 96 = 1) ∧
    ((((SequencePlayer.new.load_grid gridEmptyStop).start).tick 96).map
        (fun r => r.1.current_slot) = some (some ⟨'A'⟩)) ∧
    some (some (SlotId.mk 'A')) ≠ some (none : Option SlotId) := by
  refine ⟨by decide, by decide, by decide, by decide, by decide, by decide⟩

/-- C3 amended: if the active slot's `next_slot` is `None` *and its assigned
loop has at least one event and positive length*, the advancing tick
(`lap ≥ repeat_count`) sets `current_slot` to `None` and emits nothing, and
from then on every tick call returns the empty batch and leaves the whole
player state — in particular `current_slot = None` — unchanged, so only a
reset can resume playback; the last conjunct states the general step fact for
an arbitrary grid-mode player with `current_slot = None` (that part of the
claim needs no carve-out). -/
theorem tick_stop_silent (p : SequencePlayer) (grid : SequenceGrid)
    (id : SlotId) (slot : SequenceSlot) (l : Loop) (clock : Nat)
    (hp : p.playing = true) (hg : p.grid = some grid)
    (hc : p.current_slot = some id) (hget : grid.get? id = some slot)
    (hl : slot.loop_data = some l) (hne : l.events ≠ [])
    (hlen : l.length_clocks ≠ 0)
    (hadv : slot.repeat_count ≤ (clock - p.loop_start_clock) / l.length_clocks)
    (hnone : slot.next_slot = none) :
    p.tick clock =
      some ({ p with current_slot := none, current_iteration := 0,
                     next_event_idx := 0, loop_start_clock := clock }, []) ∧
    (∀ cs : List Nat,
      SequencePlayer.ticksOut
        { p with current_slot := none, current_iteration := 0,
                 next_event_idx := 0, loop_start_clock := clock } cs =
      some ({ p with current_slot := none, current_iteration := 0,
                     next_event_idx := 0, loop_start_clock := clock },
            cs.map fun _ => [])) ∧
    (∀ (q : SequencePlayer) (c : Nat), q.current_slot = none →
      q.grid.isSome = true → q.tick c = some (q, [])) := by
  have hshape := tick_advance_shape p grid id slot l clock hp hg hc hget hl
    hne hlen hadv
  rw [hnone] at hshape
  refine ⟨?_, ?_, fun q c hq hqg => tick_slot_none q c hq hqg⟩
  · rw [hshape, SequencePlayer.collect_grid_events_at_position]
    simp only [hg]
  · intro cs
    exact ticksOut_slot_none _ rfl (by simp [hg]) cs

/-- Witness for C3: the concrete stop grid, ticked across the lap boundary
at clock 96, goes silent with `current_slot = None`. -/
theorem tick_stop_silent_witness :
    ((SequencePlayer.new.load_grid gridStop).start).tick 96 =
      some ({ (SequencePlayer.new.load_grid gridStop).start with
              current_slot := none, current_iteration := 0,
              next_event_idx := 0, loop_start_clock := 96 }, []) :=
  (tick_stop_silent ((SequencePlayer.new.load_grid gridStop).start) gridStop
    ⟨'A'⟩ ⟨⟨'A'⟩, some testLoop, 1, none⟩ testLoop 96 rfl rfl rfl (by decide)
    rfl (by decide) (by decide) (by decide) rfl).1

/-! ## Claim C2: the advancing tick -/

/-- C2 counterexample: on a slot whose assigned loop has no events,
`tick_grid` returns early without advancing, although the lap
`(pulse − lap_origin) / length = 1` has reached `repeat_count = 1` and
`next_slot = B`: after `tick 96` the current slot is still A, not B. -/
theorem tick_grid_advance_counterexample :
    ((gridEmptyLoop.get? ⟨'A'⟩).map (fun s => s.next_slot) =
      some (some ⟨'B'⟩)) ∧
    ((gridEmptyLoop.get? ⟨'A'⟩).map (fun s => s.repeat_count) = some 1) ∧
    ((gridEmptyLoop.get? ⟨'A'⟩).map (fun s => s.loop_data.map
        (fun l => l.length_clocks)) = some (some 96)) ∧
    ((96 - ((SequencePlayer.new.load_grid gridEmptyLoop).start).loop_start_clock)
        / 96 = 1) ∧
    ((((SequencePlayer.new.load_grid gridEmptyLoop).start).tick 96).map
        (fun r => r.1.current_slot) = some (some ⟨'A'⟩)) ∧
    some (some (SlotId.mk 'A')) ≠ some (some (SlotId.mk 'B')) := by
  refine ⟨by decide, by decide, by decide, by decide, by decide, by decide⟩

/-- C2 amended: for every grid slot with an assigned loop *that has at least
one event and a positive length*, once `lap = (pulse − lap_origin) / length`
reaches `repeat_count` the tick sets `current_slot` to the slot's
`next_slot`, resets `current_iteration` to 0, sets `lap_origin_pulse`
(`loop_start_clock`) to the current pulse, and — with the cursor re-armed at
0 and then advanced past the returned batch — returns within the same tick
the events at position 0 of the newly entered slot (empty if the new slot is
`None` or holds no loop); slots the advance can enter must resolve in the
grid and their loops carry the sorted-events invariant. -/
theorem tick_grid_advance (p : SequencePlayer) (grid : SequenceGrid)
    (id : SlotId) (slot : SequenceSlot) (l : Loop) (clock : Nat)
    (hp : p.playing = true) (hg : p.grid = some grid)
    (hc : p.current_slot = some id) (hget : grid.get? id = some slot)
    (hl : slot.loop_data = some l) (hne : l.events ≠ [])
    (hlen : l.length_clocks ≠ 0)
    (hadv : slot.repeat_count ≤ (clock - p.loop_start_clock) / l.length_clocks)
    (hres : ∀ id2, slot.next_slot = some id2 →
      ∃ slot2, grid.get? id2 = some slot2 ∧
        ∀ l2, slot2.loop_data = some l2 →
          l2.events.Pairwise (fun a b => a.clock_position ≤ b.clock_position)) :
    p.tick clock =
      some ({ p with current_slot := slot.next_slot, current_iteration := 0,
                     next_event_idx := (eventsAtZero grid slot.next_slot).length,
                     loop_start_clock := clock },
            eventsAtZero grid slot.next_slot) := by
  rw [tick_advance_shape p grid id slot l clock hp hg hc hget hl hne hlen hadv]
  exact collect_at_zero_eq _ grid hg rfl hres

/-- Witness for C2: crossing slot A's lap boundary at clock 96 in `gridAB`
enters slot B and emits B's position-0 note within the same tick. -/
theorem tick_grid_advance_witness :
    ((SequencePlayer.new.load_grid gridAB).start).tick 96 =
      some ({ (SequencePlayer.new.load_grid gridAB).start with
              current_slot := some ⟨'B'⟩, current_iteration := 0,
              next_event_idx := 1, loop_start_clock := 96 },
            [[0x90, 64, 100]]) := by
  have h := tick_grid_advance ((SequencePlayer.new.load_grid gridAB).start)
    gridAB ⟨'A'⟩ ⟨⟨'A'⟩, some testLoop, 1, some ⟨'B'⟩⟩ testLoop 96 rfl rfl rfl
    (by decide) rfl (by decide) (by decide) (by decide)
    (fun id2 hid2 => by
      cases hid2
      exact ⟨⟨⟨'B'⟩, some testLoopB, 1, none⟩, by decide,
        fun l2 hl2 => by cases hl2; decide⟩)
  simpa using h

/-! ## Clock handler step lemmas -/

/-- Handling a CLOCK-headed message is exactly the clock arm. -/
theorem handle_clock_eq (s : ClockState) (t : List Nat) (now : ℚ) :
    s.handle_midi_message_at (MIDI_CLOCK :: t) now = clockStep s now := by
  rw [ClockState.handle_midi_message_at, if_neg (by decide),
    if_neg (by decide), if_neg (by decide), if_pos rfl]

/-- Handling a STOP-headed message latches the transport and stops. -/
theorem handle_stop_eq (s : ClockState) (t : List Nat) (now : ℚ) :
    s.handle_midi_message_at (MIDI_STOP :: t) now =
      { s with seen_transport := true, running := false } := by
  rw [ClockState.handle_midi_message_at, if_neg (by decide),
    if_neg (by decide), if_pos rfl]

/-- The clock arm never changes `seen_transport`. -/
theorem clockStep_seen (s : ClockState) (now : ℚ) :
    (clockStep s now).seen_transport = s.seen_transport := by
  by_cases h : s.seen_transport = false <;>
    by_cases hr : s.running = true <;>
    simp [clockStep, h, hr]

/-- Running state after the clock arm: auto-start exactly when no explicit
transport has been seen yet. -/
theorem clockStep_running (s : ClockState) (now : ℚ) :
    (clockStep s now).running =
      (if s.seen_transport = false then true else s.running) := by
  by_cases h : s.seen_transport = false <;>
    by_cases hr : s.running = true <;>
    simp [clockStep, h, hr]

/-- The buffer and BPM after the clock arm are those of `bpmOnClock`,
independently of the running flag. -/
theorem clockStep_bpm (s : ClockState) (now : ℚ) :
    (clockStep s now).clock_times = (bpmOnClock s.clock_times s.bpm_x100 now).1 ∧
    (clockStep s now).bpm_x100 = (bpmOnClock s.clock_times s.bpm_x100 now).2 := by
  by_cases h : s.seen_transport = false <;>
    by_cases hr : s.running = true <;>
    simp [clockStep, h, hr]

/-- Pulse count after the clock arm: incremented (wrapping `u64`) exactly
when the post-auto-start running flag is set. -/
theorem clockStep_count (s : ClockState) (now : ℚ) :
    (clockStep s now).clock_count =
      (if (if s.seen_transport = false then true else s.running) = true
       then (s.clock_count + 1) % U64 else s.clock_count) := by
  by_cases h : s.seen_transport = false <;>
    by_cases hr : s.running = true <;>
    simp [clockStep, h, hr]

/-- Handling a START-headed message resets counter, BPM and history. -/
theorem handle_start_eq (s : ClockState) (t : List Nat) (now : ℚ) :
    s.handle_midi_message_at (MIDI_START :: t) now =
      { s with seen_transport := true, running := true, clock_count := 0,
               bpm_x100 := 0, clock_times := s.clock_times.clear } := by
  rw [ClockState.handle_midi_message_at, if_pos rfl]

/-- Handling a CONTINUE-headed message resumes without resetting. -/
theorem handle_continue_eq (s : ClockState) (t : List Nat) (now : ℚ) :
    s.handle_midi_message_at (MIDI_CONTINUE :: t) now =
      { s with seen_transport := true, running := true } := by
  rw [ClockState.handle_midi_message_at, if_neg (by decide), if_pos rfl]

/-- Any other message byte is ignored. -/
theorem handle_other_eq (s : ClockState) (b : Nat) (t : List Nat) (now : ℚ)
    (h1 : b ≠ MIDI_START) (h2 : b ≠ MIDI_CONTINUE) (h3 : b ≠ MIDI_STOP)
    (h4 : b ≠ MIDI_CLOCK) :
    s.handle_midi_message_at (b :: t) now = s := by
  rw [ClockState.handle_midi_message_at, if_neg h1, if_neg h2, if_neg h3,
    if_neg h4]

/-! ## Claim C4: pulse counting vs BPM estimation -/

/-- C4: across every handled MIDI message, `clock_count` grows only when the
message is a CLOCK pulse processed with `running` true (START resets it to 0,
which is never a growth), the BPM computation (`bpmOnClock`: push into the
ring buffer and recompute the estimate) runs on every CLOCK message whatever
the running flag holds, and in particular after a STOP (transport latched,
not running) CLOCK pulses keep updating the BPM state while `clock_count`
stays unchanged. -/
theorem clock_count_only_while_running (s : ClockState) (m : List Nat)
    (now : ℚ) :
    (s.clock_count < (s.handle_midi_message_at m now).clock_count →
      m.head? = some MIDI_CLOCK ∧
      (s.handle_midi_message_at m now).running = true) ∧
    (m.head? = some MIDI_CLOCK →
      (s.handle_midi_message_at m now).clock_times =
        (bpmOnClock s.clock_times s.bpm_x100 now).1 ∧
      (s.handle_midi_message_at m now).bpm_x100 =
        (bpmOnClock s.clock_times s.bpm_x100 now).2) ∧
    (m.head? = some MIDI_CLOCK → s.seen_transport = true →
      s.running = false →
      (s.handle_midi_message_at m now).clock_count = s.clock_count) := by
  cases m with
  | nil =>
    exact ⟨fun h => absurd h (lt_irrefl _), fun h => Option.noConfusion h,
      fun h => Option.noConfusion h⟩
  | cons b t =>
    by_cases hb : b = MIDI_CLOCK
    · subst hb
      rw [handle_clock_eq]
      refine ⟨?_, fun _ => clockStep_bpm s now, fun _ hseen hrun => ?_⟩
      · intro h
        rw [clockStep_count] at h
        refine ⟨rfl, ?_⟩
        rw [clockStep_running]
        by_cases hcond :
            (if s.seen_transport = false then true else s.running) = true
        · exact hcond
        · rw [if_neg hcond] at h
          exact absurd h (lt_irrefl _)
      · rw [clockStep_count, hseen]
        simp [hrun]
    · have hhead : (b :: t).head? = some MIDI_CLOCK → False := by
        intro h
        injection h with h
        exact hb h
      refine ⟨?_, fun h => absurd h hhead, fun h => absurd h hhead⟩
      intro h
      exfalso
      by_cases h1 : b = MIDI_START
      · subst h1
        rw [handle_start_eq] at h
        exact Nat.not_lt_zero _ h
      · by_cases h2 : b = MIDI_CONTINUE
        · subst h2
          rw [handle_continue_eq] at h
          exact lt_irrefl _ h
        · by_cases h3 : b = MIDI_STOP
          · subst h3
            rw [handle_stop_eq] at h
            exact lt_irrefl _ h
          · rw [handle_other_eq s b t now h1 h2 h3 hb] at h
            exact lt_irrefl _ h

/-- Witness for C4: a first CLOCK pulse on a fresh state auto-starts and
advances the counter from 0 to 1. -/
theorem clock_count_only_while_running_witness :
    ClockState.new.clock_count <
      (ClockState.new.handle_midi_message_at [MIDI_CLOCK] 1).clock_count ∧
    ([MIDI_CLOCK].head? = some MIDI_CLOCK ∧
      (ClockState.new.handle_midi_message_at [MIDI_CLOCK] 1).running = true) :=
  ⟨by decide,
   (clock_count_only_while_running ClockState.new [MIDI_CLOCK] 1).1
     (by decide)⟩

/-! ## Claim C5: auto-start only before explicit transport -/

/-- Once stopped with the transport latch set, clock pulses never restart. -/
theorem clockPulses_stopped (s : ClockState) (ts : List ℚ)
    (hseen : s.seen_transport = true) (hrun : s.running = false) :
    (clockPulses s ts).running = false ∧
    (clockPulses s ts).seen_transport = true := by
  induction ts generalizing s with
  | nil => exact ⟨hrun, hseen⟩
  | cons t ts ih =>
    have h1 : (s.handle_midi_message_at [MIDI_CLOCK] t).seen_transport =
        true := by
      rw [handle_clock_eq, clockStep_seen]
      exact hseen
    have h2 : (s.handle_midi_message_at [MIDI_CLOCK] t).running = false := by
      rw [handle_clock_eq, clockStep_running, hseen]
      simpa using hrun
    exact ih _ h1 h2

/-- C5: a CLOCK message auto-starts (`running := true`) exactly while
`seen_transport` is still false; once the latch is set a CLOCK message never
changes `running`, and therefore after a STOP the state stays stopped under
any number of further clock pulses. -/
theorem clock_autostart_latch (s : ClockState) (m : List Nat) (now : ℚ)
    (ts : List ℚ) :
    (m.head? = some MIDI_CLOCK → s.seen_transport = false →
      (s.handle_midi_message_at m now).running = true) ∧
    (m.head? = some MIDI_CLOCK → s.seen_transport = true →
      (s.handle_midi_message_at m now).running = s.running) ∧
    ((clockPulses (s.handle_midi_message_at [MIDI_STOP] now) ts).running =
        false ∧
     (clockPulses (s.handle_midi_message_at [MIDI_STOP] now) ts).seen_transport
        = true) := by
  refine ⟨?_, ?_, ?_⟩
  · intro hm hseen
    cases m with
    | nil => exact Option.noConfusion hm
    | cons b t =>
      obtain rfl : b = MIDI_CLOCK := by injection hm
      rw [handle_clock_eq, clockStep_running, if_pos hseen]
  · intro hm hseen
    cases m with
    | nil => exact Option.noConfusion hm
    | cons b t =>
      obtain rfl : b = MIDI_CLOCK := by injection hm
      rw [handle_clock_eq, clockStep_running, hseen]
      simp
  · exact clockPulses_stopped (s.handle_midi_message_at [MIDI_STOP] now) ts
      (by rw [handle_stop_eq]) (by rw [handle_stop_eq])

/-- Witness for C5: fresh state auto-starts on a pulse; after START then
STOP, two further pulses leave the system stopped. -/
theorem clock_autostart_latch_witness :
    ([MIDI_CLOCK].head? = some MIDI_CLOCK ∧
      ClockState.new.seen_transport = false ∧
      (ClockState.new.handle_midi_message_at [MIDI_CLOCK] 1).running = true) ∧
    (clockPulses (ClockState.new.handle_midi_message_at [MIDI_STOP] 0)
      [1, 2]).running = false :=
  ⟨⟨rfl, rfl,
    (clock_autostart_latch ClockState.new [MIDI_CLOCK] 1 []).1 rfl rfl⟩,
   (clock_autostart_latch ClockState.new [MIDI_STOP] 0 [1, 2]).2.2.1⟩

/-! ## Claim C6: quantization and sortedness of loaded loops -/

/-- Every event produced by the per-track parse loop comes from a
channel-voice track event and is quantized to
`(accumulated delta) * 24 / ppq`. -/
theorem mem_trackLoopEvents (ppq : Nat) (track : List TrackEvent)
    (e : LoopEvent) :
    ∀ t0, e ∈ trackLoopEvents ppq t0 track →
    ∃ i te ch msg, track.get? i = some te ∧ te.kind = .midi ch msg ∧
      e.clock_position =
        (t0 + sumDeltas (track.take (i + 1))) * CLOCKS_PER_BEAT / ppq ∧
      e.channel = ch ∧ e.message = msgBytes ch msg := by
  induction track with
  | nil =>
    intro t0 he
    simp [trackLoopEvents] at he
  | cons te0 rest ih =>
    intro t0 he
    rw [trackLoopEvents] at he
    cases hk : te0.kind with
    | midi ch msg =>
      rw [hk] at he
      rcases List.mem_cons.mp he with rfl | hmem
      · exact ⟨0, te0, ch, msg, rfl, hk, by simp [sumDeltas], rfl, rfl⟩
      · obtain ⟨i, te, ch2, msg2, hget, hkind, hpos, hch, hmsg⟩ :=
          ih (t0 + te0.delta) hmem
        refine ⟨i + 1, te, ch2, msg2, hget, hkind, ?_, hch, hmsg⟩
        simpa [sumDeltas, Nat.add_assoc] using hpos
    | other =>
      rw [hk] at he
      obtain ⟨i, te, ch2, msg2, hget, hkind, hpos, hch, hmsg⟩ :=
        ih (t0 + te0.delta) he
      refine ⟨i + 1, te, ch2, msg2, hget, hkind, ?_, hch, hmsg⟩
      simpa [sumDeltas, Nat.add_assoc] using hpos

/-- C6: for a metrical file accepted by `Loop::from_file` (nonzero ppq), the
merged event list is sorted in non-decreasing `clock_position` order, and
every event carries `clock_position = floor(absolute_tick * 24 / file_ppq)`
for the accumulated delta time of its originating channel-voice track event,
with its payload re-encoded by `msgBytes` on its originating channel. -/
theorem fromTracks_quantized_sorted (name : String) (ppq : Nat)
    (tracks : List (List TrackEvent)) (bars : Nat) (hppq : 0 < ppq) :
    (Loop.fromTracks name ppq tracks bars).events.Pairwise
      (fun a b => a.clock_position ≤ b.clock_position) ∧
    ∀ e ∈ (Loop.fromTracks name ppq tracks bars).events,
      ∃ track, track ∈ tracks ∧ ∃ i te ch msg,
        track.get? i = some te ∧ te.kind = .midi ch msg ∧
        e.clock_position =
          sumDeltas (track.take (i + 1)) * CLOCKS_PER_BEAT / ppq ∧
        e.channel = ch ∧ e.message = msgBytes ch msg := by
  constructor
  · have h := @List.sorted_mergeSort LoopEvent
      (fun a b => a.clock_position ≤ b.clock_position)
      (fun a b c hab hbc => by
        simp only [decide_eq_true_eq] at hab hbc ⊢
        omega)
      (fun a b => by
        rcases Nat.le_total a.clock_position b.clock_position with h | h <;>
          simp [h])
      ((tracks.map (trackLoopEvents ppq 0)).flatten)
    simp only [Loop.fromTracks]
    exact h.imp (fun hab => by simpa using hab)
  · intro e he
    simp only [Loop.fromTracks] at he
    rw [List.mem_mergeSort] at he
    rw [List.mem_flatten] at he
    obtain ⟨lst, hlst, hmem⟩ := he
    obtain ⟨track, htrack, rfl⟩ := List.mem_map.mp hlst
    obtain ⟨i, te, ch, msg, hget, hkind, hpos, hch, hmsg⟩ :=
      mem_trackLoopEvents ppq track e 0 hmem
    exact ⟨track, htrack, i, te, ch, msg, hget, hkind,
      by simpa using hpos, hch, hmsg⟩

/-- Witness for C6 at a one-track file with ppq 96 (note-on at tick 0,
note-off at tick 96). -/
theorem fromTracks_quantized_sorted_witness :
    0 < 96 ∧
    (Loop.fromTracks "w" 96
      [[⟨0, .midi 0 (.noteOn 60 100)⟩, ⟨96, .midi 0 (.noteOff 60 0)⟩]]
      1).events.Pairwise
      (fun a b => a.clock_position ≤ b.clock_position) :=
  ⟨by decide,
   (fromTracks_quantized_sorted "w" 96
     [[⟨0, .midi 0 (.noteOn 60 100)⟩, ⟨96, .midi 0 (.noteOff 60 0)⟩]]
     1 (by decide)).1⟩

end Looper
